import Mathlib

/-!
Verification of the image-ingestion and bot-update relay pipeline
(`main.py` of the telegram drawing mini-app).

The embedding models:
* `table_a2b` / `a2b_aux` / `b64decode` — CPython `base64.b64decode` in its
  default non-validating mode (`binascii.a2b_base64`, non-strict): characters
  outside the base64 alphabet are skipped, a pad sequence reached at
  quad position 2 or 3 terminates decoding, and a final quad position
  other than 0 is an error; a non-ASCII input character is an error.
* `b64encode` — standard base64 encoding with padding.
* `stripDataUrlHeader` — the data-URL header stripping done by `upload`
  (split at the first comma, keep the right-hand part).
* `uuid4bytes` / `uuid4hex` — `uuid.uuid4().hex`: 16 random bytes with the
  version nibble forced to 4 and the variant bits forced to 10, printed as
  32 lowercase hex digits.
* `save` — the file write of `upload`: the bytes are written directly to the
  final path `static/uploads/<hex>.png`, served as `/uploads/<hex>.png`.
  `writeFail = some k` models an I/O exception raised after `k` bytes were
  written; since the destination is opened before writing, the bytes written
  so far remain at the final (referencable) path.
* `upload` — the `/upload` request handler: JSON validation, header strip,
  base64 decode, file write, optional best-effort photo delivery.
* `handle_start` — the `/start` command handler: base-URL resolution
  (`(APP_URL or WEBHOOK_URL or '').rstrip('/')`) and the produced outbound
  actions, one per `bot.send_message` call.
-/

/-- Byte value of a base64 alphabet character (`table_a2b_base64`);
`none` for every character outside the alphabet. -/
def table_a2b (c : Char) : Option Nat :=
  let n := c.toNat
  if 65 ≤ n ∧ n ≤ 90 then some (n - 65)
  else if 97 ≤ n ∧ n ≤ 122 then some (n - 97 + 26)
  else if 48 ≤ n ∧ n ≤ 57 then some (n - 48 + 52)
  else if n = 43 then some 62
  else if n = 47 then some 63
  else none

/-- Character of a 6-bit value in the standard base64 alphabet. -/
def b64char (n : Nat) : Char :=
  if n < 26 then Char.ofNat (65 + n)
  else if n < 52 then Char.ofNat (97 + (n - 26))
  else if n < 62 then Char.ofNat (48 + (n - 52))
  else if n = 62 then '+'
  else '/'

/-- The decode loop of non-strict `binascii.a2b_base64`: state is the
quad position, the pending left-over bits and the running pad count.
Characters outside the alphabet are skipped; a pad character at quad
position below 2 is ignored; a completed pad sequence ends the decode;
a final quad position other than 0 is a padding error (`none`). -/
def a2b_aux : List Char → Nat → Nat → Nat → Option (List Nat)
  | [], qp, _, _ => if qp = 0 then some [] else none
  | c :: rest, qp, lc, pads =>
    if c = '=' then
      if 2 ≤ qp then
        if 4 ≤ qp + (pads + 1) then some []
        else a2b_aux rest qp lc (pads + 1)
      else a2b_aux rest qp lc pads
    else
      match table_a2b c with
      | none => a2b_aux rest qp lc pads
      | some v =>
        match qp with
        | 0 => a2b_aux rest 1 v 0
        | 1 => Option.map (fun r => (lc * 4 + v / 16) :: r) (a2b_aux rest 2 (v % 16) 0)
        | 2 => Option.map (fun r => (lc * 16 + v / 4) :: r) (a2b_aux rest 3 (v % 4) 0)
        | _ => Option.map (fun r => (lc * 64 + v) :: r) (a2b_aux rest 0 0 0)

/-- `base64.b64decode` on a Python `str`: the string must be pure ASCII
(its ASCII encoding is what `a2b_base64` consumes), then the non-strict
decode loop runs. -/
def b64decode (s : List Char) : Option (List Nat) :=
  if s.all (fun c => c.toNat < 128) then a2b_aux s 0 0 0 else none

/-- Standard base64 encoding with padding (`base64.b64encode`). -/
def b64encode : List Nat → List Char
  | [] => []
  | [b1] => [b64char (b1 / 4), b64char (b1 % 4 * 16), '=', '=']
  | [b1, b2] =>
      [b64char (b1 / 4), b64char (b1 % 4 * 16 + b2 / 16), b64char (b2 % 16 * 4), '=']
  | b1 :: b2 :: b3 :: rest =>
      b64char (b1 / 4) :: b64char (b1 % 4 * 16 + b2 / 16) ::
      b64char (b2 % 16 * 4 + b3 / 64) :: b64char (b3 % 64) :: b64encode rest

/-- Everything after the first occurrence of `c` (the right-hand part of
Python `s.split(c, 1)` when `c` occurs). -/
def afterFirst (c : Char) : List Char → List Char
  | [] => []
  | x :: xs => if x = c then xs else afterFirst c xs

/-- The header stripping of `upload`: if the image string contains a comma,
keep only what follows the first comma (the MIME header is discarded
without validation); otherwise the string is used as is. -/
def stripDataUrlHeader (s : List Char) : List Char :=
  if ',' ∈ s then afterFirst ',' s else s

/-- Decoding as done by `upload` lines 100–105: strip the optional data-URL
header, then base64-decode the remainder. -/
def decodeImage (s : List Char) : Option (List Nat) :=
  b64decode (stripDataUrlHeader s)

/-- The version/variant masking of `uuid.UUID(bytes=..., version=4)` applied
to the 16 random bytes: byte 6 keeps its low nibble and gets version nibble
4; byte 8 keeps its low 6 bits and gets variant bits 10. -/
def uuidMaskAux : Nat → List Nat → List Nat
  | _, [] => []
  | i, b :: rest =>
      (if i = 6 then b % 16 + 64 else if i = 8 then b % 64 + 128 else b) ::
      uuidMaskAux (i + 1) rest

/-- Masked byte sequence of `uuid.uuid4()` built from the random bytes. -/
def uuid4bytes (r : List Nat) : List Nat := uuidMaskAux 0 r

/-- Lowercase hex digit of a value below 16. -/
def hexDigit (n : Nat) : Char :=
  if n < 10 then Char.ofNat (48 + n) else Char.ofNat (87 + n)

/-- Two lowercase hex digits of a byte. -/
def byteHex (b : Nat) : List Char := [hexDigit (b / 16), hexDigit (b % 16)]

/-- `uuid.uuid4().hex` as a function of the 16 random source bytes. -/
def uuid4hex (r : List Nat) : String :=
  String.mk (((uuid4bytes r).map byteHex).flatten)

/-- A persisted artifact: its hex identifier and its referencable path. -/
structure Artifact where
  id : String
  path : String
  deriving DecidableEq, Repr

/-- The file write of `upload` lines 109–112: the name is
`uuid4().hex + ".png"`, the bytes are written directly to the final path
inside the uploads directory, served at `/uploads/<name>`.
`writeFail = some k` models an I/O exception after `k` bytes: the write
raises (no artifact is returned) but the destination file, already created
at its final path, keeps the bytes written so far. The second component is
the file visible at the referencable path after the call. -/
def save (rand : List Nat) (bytes : List Nat) (writeFail : Option Nat) :
    Option Artifact × Option (String × List Nat) :=
  let name := uuid4hex rand ++ ".png"
  let ref := "/uploads/" ++ name
  match writeFail with
  | some k => (none, some (ref, bytes.take k))
  | none => (some ⟨uuid4hex rand, ref⟩, some (ref, bytes))

/-- Parsed JSON body of an upload request. -/
structure UploadBody where
  image : Option (List Char)
  chat_id : Option String
  deriving DecidableEq

/-- Python truthiness of an optional string: `None` and `""` are falsy. -/
def pyTruthyStr : Option String → Bool
  | none => false
  | some s => s != ""

/-- JSON body of the HTTP response of `upload`. -/
inductive RespBody where
  | errInvalidJson
  | errNoImage
  | errInvalidBase64
  | serverError
  | statusSent (file : String)
  | statusErrorSending (file : String)
  | statusSaved (file : String)
  deriving DecidableEq, Repr

/-- Outcome of one `upload` request: HTTP status code, response body, and
the file present at its referencable path after the request (if any). -/
structure UploadResult where
  code : Nat
  body : RespBody
  fileWritten : Option (String × List Nat)
  deriving DecidableEq, Repr

/-- The `/upload` handler. Arguments model the request and environment:
`body?` is the parsed JSON body (`none` = the JSON parse raised),
`botConfigured` is `bot is not None` (telebot importable and token set),
`rand` the 16 random bytes consumed by `uuid.uuid4()`, `writeFail` the file
write outcome, `sendOk` the `send_photo` outcome when attempted. -/
def upload (body? : Option UploadBody) (botConfigured : Bool) (rand : List Nat)
    (writeFail : Option Nat) (sendOk : Bool) : UploadResult :=
  match body? with
  | none => ⟨400, RespBody.errInvalidJson, none⟩
  | some d =>
    match d.image with
    | none => ⟨400, RespBody.errNoImage, none⟩
    | some img =>
      match decodeImage img with
      | none => ⟨400, RespBody.errInvalidBase64, none⟩
      | some imgBytes =>
        match save rand imgBytes writeFail with
        | (none, f) => ⟨500, RespBody.serverError, f⟩
        | (some art, f) =>
          if botConfigured && pyTruthyStr d.chat_id then
            if sendOk then ⟨201, RespBody.statusSent art.path, f⟩
            else ⟨500, RespBody.statusErrorSending art.path, f⟩
          else ⟨201, RespBody.statusSaved art.path, f⟩

/-- Outbound bot actions, one per `bot.send_message` call of the handler. -/
inductive OutAction where
  | sendText (chatId : Int) (text : String)
  | sendButtonLink (chatId : Int) (text : String) (buttonLabel : String) (url : String)
  deriving DecidableEq, Repr

/-- Reply text of `/start` when no base URL is configured. -/
def startNotConfiguredText : String :=
  "Администратор не настроил APP_URL или WEBHOOK_URL — не могу открыть мини-рисовалку."

/-- Prompt text accompanying the `/start` button. -/
def startPromptText : String :=
  "Нажми кнопку ниже, чтобы открыть мини-рисовалку. Нарисуй картинку и нажми \x27Отправить в чат\x27 — она придёт сюда."

/-- Label of the `/start` inline button. -/
def startButtonLabel : String := "Открыть мини-рисовалку"

/-- Python `a or b` on an optional string: `None` and `""` are falsy. -/
def pyOrStr (a : Option String) (b : String) : String :=
  match a with
  | none => b
  | some s => if s = "" then b else s

/-- Python `s.rstrip('/')`: remove every trailing slash. -/
def rstripSlash (s : String) : String :=
  String.mk ((s.toList.reverse.dropWhile (fun c => c = '/')).reverse)

/-- Base URL resolution of `handle_start`:
`(APP_URL or WEBHOOK_URL or '').rstrip('/')`. -/
def resolvedBase (appUrl webhookUrl : Option String) : String :=
  rstripSlash (pyOrStr appUrl (pyOrStr webhookUrl ""))

/-- The `/start` handler: with an empty resolved base URL it sends one plain
message; otherwise it sends one message carrying the inline button whose URL
is the base URL with `/?chat_id=<chat id>` appended. -/
def handle_start (chatId : Int) (appUrl webhookUrl : Option String) : List OutAction :=
  let base := resolvedBase appUrl webhookUrl
  if base = "" then [OutAction.sendText chatId startNotConfiguredText]
  else
    [OutAction.sendButtonLink chatId startPromptText startButtonLabel
      (base ++ "/?chat_id=" ++ toString chatId)]

/-- Validation failures of the upload request: unparseable JSON, missing
image field, or a payload whose base64 decode fails. -/
def validationFails : Option UploadBody → Prop
  | none => True
  | some d =>
    match d.image with
    | none => True
    | some img => decodeImage img = none

/-- File reference carried by an upload response body, when present. -/
def respFile : RespBody → Option String
  | RespBody.statusSent f => some f
  | RespBody.statusErrorSending f => some f
  | RespBody.statusSaved f => some f
  | _ => none

/-- Modelled from the amended C10 wording: the base URL is the first of
APP_URL, WEBHOOK_URL that is set and non-empty (the empty string when
neither is), with trailing slash characters removed afterwards. -/
def specStartBase (appUrl webhookUrl : Option String) : String :=
  if appUrl.getD "" ≠ "" then rstripSlash (appUrl.getD "")
  else if webhookUrl.getD "" ≠ "" then rstripSlash (webhookUrl.getD "")
  else ""

/-! ## Base64 alphabet facts -/

lemma b64char_table : ∀ n, n < 64 → table_a2b (b64char n) = some n := by decide

lemma b64char_ne_pad : ∀ n, n < 64 → b64char n ≠ '=' := by decide

lemma b64char_ne_comma : ∀ n, n < 64 → b64char n ≠ ',' := by decide

lemma b64char_ascii : ∀ n, n < 64 → (b64char n).toNat < 128 := by decide

lemma mem_b64encode : ∀ {bs : List Nat}, (∀ b ∈ bs, b < 256) →
    ∀ {c : Char}, c ∈ b64encode bs → c = '=' ∨ ∃ n, n < 64 ∧ c = b64char n
  | [], _, _, hc => by simp [b64encode] at hc
  | [b1], hb, c, hc => by
    have h1 : b1 < 256 := hb b1 (by simp)
    simp only [b64encode, List.mem_cons, List.not_mem_nil, or_false] at hc
    rcases hc with rfl | rfl | rfl | rfl
    · exact Or.inr ⟨b1 / 4, by omega, rfl⟩
    · exact Or.inr ⟨b1 % 4 * 16, by omega, rfl⟩
    · exact Or.inl rfl
    · exact Or.inl rfl
  | [b1, b2], hb, c, hc => by
    have h1 : b1 < 256 := hb b1 (by simp)
    have h2 : b2 < 256 := hb b2 (by simp)
    simp only [b64encode, List.mem_cons, List.not_mem_nil, or_false] at hc
    rcases hc with rfl | rfl | rfl | rfl
    · exact Or.inr ⟨b1 / 4, by omega, rfl⟩
    · exact Or.inr ⟨b1 % 4 * 16 + b2 / 16, by omega, rfl⟩
    · exact Or.inr ⟨b2 % 16 * 4, by omega, rfl⟩
    · exact Or.inl rfl
  | b1 :: b2 :: b3 :: rest, hb, c, hc => by
    have h1 : b1 < 256 := hb b1 (by simp)
    have h2 : b2 < 256 := hb b2 (by simp)
    have h3 : b3 < 256 := hb b3 (by simp)
    simp only [b64encode, List.mem_cons] at hc
    rcases hc with rfl | rfl | rfl | rfl | hmem
    · exact Or.inr ⟨b1 / 4, by omega, rfl⟩
    · exact Or.inr ⟨b1 % 4 * 16 + b2 / 16, by omega, rfl⟩
    · exact Or.inr ⟨b2 % 16 * 4 + b3 / 64, by omega, rfl⟩
    · exact Or.inr ⟨b3 % 64, by omega, rfl⟩
    · exact mem_b64encode (fun b h => hb b (by simp [h])) hmem

lemma b64encode_ascii {bs : List Nat} (hb : ∀ b ∈ bs, b < 256) :
    (b64encode bs).all (fun c => c.toNat < 128) = true := by
  rw [List.all_eq_true]
  intro c hc
  rcases mem_b64encode hb hc with rfl | ⟨n, hn, rfl⟩
  · decide
  · simpa using b64char_ascii n hn

lemma comma_not_mem_b64encode {bs : List Nat} (hb : ∀ b ∈ bs, b < 256) :
    ',' ∉ b64encode bs := by
  intro hc
  rcases mem_b64encode hb hc with h | ⟨n, hn, h⟩
  · exact absurd h.symm (by decide)
  · exact b64char_ne_comma n hn h.symm

/-! ## Header stripping facts -/

lemma afterFirst_append {c : Char} : ∀ {p : List Char}, c ∉ p →
    ∀ e : List Char, afterFirst c (p ++ c :: e) = e
  | [], _, e => by simp [afterFirst]
  | x :: xs, hp, e => by
    have hx : x ≠ c := fun h => hp (by simp [h])
    simp only [List.cons_append, afterFirst, if_neg hx]
    exact afterFirst_append (fun h => hp (by simp [h])) e

lemma stripDataUrlHeader_no_comma {s : List Char} (h : ',' ∉ s) :
    stripDataUrlHeader s = s := by
  simp [stripDataUrlHeader, h]

lemma stripDataUrlHeader_split {p : List Char} (hp : ',' ∉ p) (e : List Char) :
    stripDataUrlHeader (p ++ ',' :: e) = e := by
  have hmem : ',' ∈ p ++ ',' :: e := by simp
  simp only [stripDataUrlHeader, if_pos hmem]
  exact afterFirst_append hp e

/-! ## Round-trip of the decode loop over the encoder -/

lemma a2b_block (b1 b2 b3 : Nat) (h1 : b1 < 256) (h2 : b2 < 256) (h3 : b3 < 256)
    (cs : List Char) :
    a2b_aux (b64char (b1 / 4) :: b64char (b1 % 4 * 16 + b2 / 16) ::
      b64char (b2 % 16 * 4 + b3 / 64) :: b64char (b3 % 64) :: cs) 0 0 0 =
    Option.map (fun r => b1 :: b2 :: b3 :: r) (a2b_aux cs 0 0 0) := by
  have hv1 : b1 / 4 < 64 := by omega
  have hv2 : b1 % 4 * 16 + b2 / 16 < 64 := by omega
  have hv3 : b2 % 16 * 4 + b3 / 64 < 64 := by omega
  have hv4 : b3 % 64 < 64 := by omega
  have t1 := b64char_table _ hv1
  have t2 := b64char_table _ hv2
  have t3 := b64char_table _ hv3
  have t4 := b64char_table _ hv4
  have n1 := b64char_ne_pad _ hv1
  have n2 := b64char_ne_pad _ hv2
  have n3 := b64char_ne_pad _ hv3
  have n4 := b64char_ne_pad _ hv4
  simp only [a2b_aux, if_neg n1, if_neg n2, if_neg n3, if_neg n4, t1, t2, t3, t4]
  cases a2b_aux cs 0 0 0 with
  | none => simp
  | some r =>
    simp only [Option.map_some', Option.some.injEq, List.cons.injEq]
    refine ⟨by omega, by omega, by omega, trivial⟩

lemma a2b_b64encode : ∀ (bs : List Nat), (∀ b ∈ bs, b < 256) →
    a2b_aux (b64encode bs) 0 0 0 = some bs
  | [], _ => by simp [b64encode, a2b_aux]
  | [b1], hb => by
    have h1 : b1 < 256 := hb b1 (by simp)
    have hv1 : b1 / 4 < 64 := by omega
    have hv2 : b1 % 4 * 16 < 64 := by omega
    have t1 := b64char_table _ hv1
    have t2 := b64char_table _ hv2
    have n1 := b64char_ne_pad _ hv1
    have n2 := b64char_ne_pad _ hv2
    simp only [b64encode]
    simp [a2b_aux, if_neg n1, if_neg n2, t1, t2]
    omega
  | [b1, b2], hb => by
    have h1 : b1 < 256 := hb b1 (by simp)
    have h2 : b2 < 256 := hb b2 (by simp)
    have hv1 : b1 / 4 < 64 := by omega
    have hv2 : b1 % 4 * 16 + b2 / 16 < 64 := by omega
    have hv3 : b2 % 16 * 4 < 64 := by omega
    have t1 := b64char_table _ hv1
    have t2 := b64char_table _ hv2
    have t3 := b64char_table _ hv3
    have n1 := b64char_ne_pad _ hv1
    have n2 := b64char_ne_pad _ hv2
    have n3 := b64char_ne_pad _ hv3
    simp only [b64encode]
    simp [a2b_aux, if_neg n1, if_neg n2, if_neg n3, t1, t2, t3]
    omega
  | b1 :: b2 :: b3 :: rest, hb => by
    have h1 : b1 < 256 := hb b1 (by simp)
    have h2 : b2 < 256 := hb b2 (by simp)
    have h3 : b3 < 256 := hb b3 (by simp)
    have ih := a2b_b64encode rest (fun b h => hb b (by simp [h]))
    simp only [b64encode]
    rw [a2b_block b1 b2 b3 h1 h2 h3 (b64encode rest), ih]
    rfl

lemma b64decode_b64encode {bs : List Nat} (hb : ∀ b ∈ bs, b < 256) :
    b64decode (b64encode bs) = some bs := by
  rw [b64decode, if_pos (b64encode_ascii hb)]
  exact a2b_b64encode bs hb

/-! ## Claim C1 -/

/-- C1: for every byte sequence, encoding it as standard base64 and running
the upload decode step (strip everything up to the first comma, unvalidated,
then base64-decode) recovers exactly the original bytes, both for the bare
payload and under any data-URL header free of commas. -/
theorem C1_decode_roundtrip (bs : List Nat) (hb : ∀ b ∈ bs, b < 256) :
    decodeImage (b64encode bs) = some bs ∧
    ∀ p : List Char, ',' ∉ p → decodeImage (p ++ ',' :: b64encode bs) = some bs := by
  constructor
  · rw [decodeImage, stripDataUrlHeader_no_comma (comma_not_mem_b64encode hb)]
    exact b64decode_b64encode hb
  · intro p hp
    rw [decodeImage, stripDataUrlHeader_split hp]
    exact b64decode_b64encode hb

/-- Witness for C1 at a concrete payload and a concrete data-URL header. -/
theorem C1_decode_roundtrip_witness :
    decodeImage (b64encode [1, 255, 0]) = some [1, 255, 0] ∧
    decodeImage ("data:image/png;base64".toList ++ ',' :: b64encode [1, 255, 0]) =
      some [1, 255, 0] :=
  ⟨(C1_decode_roundtrip [1, 255, 0] (by decide)).1,
   (C1_decode_roundtrip [1, 255, 0] (by decide)).2 "data:image/png;base64".toList (by decide)⟩

/-! ## Claim C2 -/

/-- C2 is refuted: a string containing a character outside the base64
alphabet is not rejected — the interpreter's decoder silently discards such
characters, so the upload succeeds, stores a file and answers 201. -/
theorem C2_counterexample :
    upload (some ⟨some "aGVsbG8h!".toList, none⟩) false (List.replicate 16 0) none true =
      ⟨201, RespBody.statusSaved "/uploads/00000000000040008000000000000000.png",
        some ("/uploads/00000000000040008000000000000000.png",
          [104, 101, 108, 108, 111, 33])⟩ ∧
    '!' ∈ "aGVsbG8h!".toList ∧ table_a2b '!' = none := by
  decide

/-- C2 (amended): whenever base64 decoding of the stripped payload fails
(wrong padding or data-character count, or non-ASCII input — characters
outside the alphabet alone are discarded, not rejected), the upload handler
answers 400 with the invalid-base64 error and no file is created. -/
theorem C2_invalid_b64_rejected (img : List Char) (cid : Option String)
    (bot : Bool) (rand : List Nat) (wf : Option Nat) (sOk : Bool)
    (hdec : decodeImage img = none) :
    upload (some ⟨some img, cid⟩) bot rand wf sOk =
      ⟨400, RespBody.errInvalidBase64, none⟩ := by
  simp [upload, hdec]

/-- Witness for the amended C2 at the payload "abc". -/
theorem C2_invalid_b64_rejected_witness :
    upload (some ⟨some "abc".toList, none⟩) false (List.replicate 16 0) none true =
      ⟨400, RespBody.errInvalidBase64, none⟩ :=
  C2_invalid_b64_rejected "abc".toList none false (List.replicate 16 0) none true (by decide)

/-! ## Claim C3 -/

/-- C3: with a chat id present and the gateway configured, when the artifact
was persisted but photo delivery fails, the response still carries the
`/uploads/<id>.png` reference of the persisted artifact and the file is not
deleted: persistence is independent of delivery. -/
theorem C3_delivery_failure_keeps_artifact (img : List Char) (cid : String)
    (bytes rand : List Nat) (hdec : decodeImage img = some bytes) (hcid : cid ≠ "") :
    upload (some ⟨some img, some cid⟩) true rand none false =
      ⟨500, RespBody.statusErrorSending ("/uploads/" ++ (uuid4hex rand ++ ".png")),
        some ("/uploads/" ++ (uuid4hex rand ++ ".png"), bytes)⟩ := by
  have ht : pyTruthyStr (some cid) = true := by simp [pyTruthyStr, hcid]
  simp [upload, hdec, save, ht]

/-- Witness for C3 at a concrete request with failing delivery. -/
theorem C3_delivery_failure_keeps_artifact_witness :
    upload (some ⟨some "aGVsbG8=".toList, some "1"⟩) true (List.replicate 16 0) none false =
      ⟨500, RespBody.statusErrorSending
          ("/uploads/" ++ (uuid4hex (List.replicate 16 0) ++ ".png")),
        some ("/uploads/" ++ (uuid4hex (List.replicate 16 0) ++ ".png"),
          [104, 101, 108, 108, 111])⟩ :=
  C3_delivery_failure_keeps_artifact "aGVsbG8=".toList "1" [104, 101, 108, 108, 111]
    (List.replicate 16 0) (by decide) (by decide)

/-! ## Claim C4 -/

/-- C4 is refuted: when the artifact is persisted but delivery to the chat
fails, the handler answers 500 (with the error_sending body), not 201, even
though the file was persisted. -/
theorem C4_counterexample :
    (upload (some ⟨some "aGVsbG8=".toList, some "1"⟩) true
      (List.replicate 16 0) none false).code = 500 ∧
    (upload (some ⟨some "aGVsbG8=".toList, some "1"⟩) true
      (List.replicate 16 0) none false).fileWritten ≠ none := by
  decide

/-- C4 (amended): the status code is 400 exactly on validation failure
(invalid JSON, missing image, invalid base64), and then nothing is
persisted; for a persisted artifact, the outcome is exactly 201 with
status sent when delivery is attempted and succeeds, exactly 500 with
status error_sending and the artifact kept when delivery is attempted and
fails, and exactly 201 with status saved when delivery is not attempted;
an I/O failure during the write yields 500. -/
theorem C4_status_codes (body? : Option UploadBody) (bot : Bool) (rand : List Nat)
    (wf : Option Nat) (sOk : Bool) :
    ((upload body? bot rand wf sOk).code = 400 ↔ validationFails body?) ∧
    ((upload body? bot rand wf sOk).code = 400 →
      (upload body? bot rand wf sOk).fileWritten = none) ∧
    (∀ img cid bytes, body? = some ⟨some img, cid⟩ → decodeImage img = some bytes →
      upload body? bot rand none sOk =
        (if bot && pyTruthyStr cid then
          (if sOk then
            ⟨201, RespBody.statusSent ("/uploads/" ++ (uuid4hex rand ++ ".png")),
              some ("/uploads/" ++ (uuid4hex rand ++ ".png"), bytes)⟩
          else
            ⟨500, RespBody.statusErrorSending ("/uploads/" ++ (uuid4hex rand ++ ".png")),
              some ("/uploads/" ++ (uuid4hex rand ++ ".png"), bytes)⟩)
        else
          ⟨201, RespBody.statusSaved ("/uploads/" ++ (uuid4hex rand ++ ".png")),
            some ("/uploads/" ++ (uuid4hex rand ++ ".png"), bytes)⟩)) ∧
    (∀ img cid bytes k, body? = some ⟨some img, cid⟩ → decodeImage img = some bytes →
      wf = some k → (upload body? bot rand wf sOk).code = 500) := by
  have main12 : ((upload body? bot rand wf sOk).code = 400 ↔ validationFails body?) ∧
      ((upload body? bot rand wf sOk).code = 400 →
        (upload body? bot rand wf sOk).fileWritten = none) := by
    rcases body? with _ | ⟨img?, cid⟩
    · simp [upload, validationFails]
    · rcases img? with _ | img
      · simp [upload, validationFails]
      · rcases hdec : decodeImage img with _ | bytes
        · rcases wf with _ | k <;> simp [upload, validationFails, hdec]
        · rcases wf with _ | k <;>
            cases hbc : bot && pyTruthyStr cid <;> cases sOk <;>
              simp [upload, validationFails, hdec, save, hbc]
  refine ⟨main12.1, main12.2, ?_, ?_⟩
  · rintro img cid bytes rfl hdec
    cases hbc : bot && pyTruthyStr cid <;> cases sOk <;>
      simp [upload, hdec, save, hbc]
  · rintro img cid bytes k rfl hdec rfl
    simp [upload, hdec, save]

/-- Witness for the amended C4: a concrete failed-delivery request gets
exactly the 500 error_sending outcome with the artifact kept, and the same
request with a failing write gets a 500. -/
theorem C4_status_codes_witness :
    upload (some ⟨some "aGVsbG8=".toList, some "1"⟩) true (List.replicate 16 0)
        none false =
      ⟨500, RespBody.statusErrorSending
          ("/uploads/" ++ (uuid4hex (List.replicate 16 0) ++ ".png")),
        some ("/uploads/" ++ (uuid4hex (List.replicate 16 0) ++ ".png"),
          [104, 101, 108, 108, 111])⟩ ∧
    (upload (some ⟨some "aGVsbG8=".toList, some "1"⟩) true (List.replicate 16 0)
        (some 2) false).code = 500 := by
  constructor
  · have h3 := (C4_status_codes (some ⟨some "aGVsbG8=".toList, some "1"⟩) true
      (List.replicate 16 0) none false).2.2.1 "aGVsbG8=".toList (some "1")
      [104, 101, 108, 108, 111] rfl (by decide)
    exact h3.trans (by decide)
  · exact (C4_status_codes (some ⟨some "aGVsbG8=".toList, some "1"⟩) true
      (List.replicate 16 0) (some 2) false).2.2.2 "aGVsbG8=".toList (some "1")
      [104, 101, 108, 108, 111] 2 rfl (by decide) rfl

/-! ## Claim C5 -/

/-- C5: on a /start command, when the resolved base application URL is
non-empty the handler produces exactly one button-link action whose URL is
the base URL followed by /?chat_id=<chat id>; when no base URL resolves it
produces exactly one plain-text action saying the app URL is not
configured. -/
theorem C5_start_actions (chatId : Int) (appUrl webhookUrl : Option String) :
    (resolvedBase appUrl webhookUrl ≠ "" →
      handle_start chatId appUrl webhookUrl =
        [OutAction.sendButtonLink chatId startPromptText startButtonLabel
          (resolvedBase appUrl webhookUrl ++ "/?chat_id=" ++ toString chatId)]) ∧
    (resolvedBase appUrl webhookUrl = "" →
      handle_start chatId appUrl webhookUrl =
        [OutAction.sendText chatId startNotConfiguredText]) := by
  constructor <;> intro h <;> simp [handle_start, h]

/-- Witness for C5: one configured and one unconfigured concrete case. -/
theorem C5_start_actions_witness :
    handle_start 5 (some "https://x.example") none =
      [OutAction.sendButtonLink 5 startPromptText startButtonLabel
        (resolvedBase (some "https://x.example") none ++ "/?chat_id=" ++ toString (5 : Int))] ∧
    handle_start 5 none none = [OutAction.sendText 5 startNotConfiguredText] :=
  ⟨(C5_start_actions 5 (some "https://x.example") none).1 (by decide),
   (C5_start_actions 5 none none).2 (by decide)⟩

/-! ## Identifier facts -/

lemma uuidMaskAux_length : ∀ (i : Nat) (r : List Nat), (uuidMaskAux i r).length = r.length
  | _, [] => rfl
  | i, b :: rest => by
    simp only [uuidMaskAux, List.length_cons, uuidMaskAux_length (i + 1) rest]

lemma uuidMaskAux_bound : ∀ (i : Nat) {r : List Nat}, (∀ b ∈ r, b < 256) →
    ∀ b ∈ uuidMaskAux i r, b < 256
  | _, [], _, b, hb => by simp [uuidMaskAux] at hb
  | i, x :: rest, h, b, hb => by
    simp only [uuidMaskAux, List.mem_cons] at hb
    rcases hb with rfl | hb
    · have hx : x < 256 := h x (by simp)
      split_ifs <;> omega
    · exact uuidMaskAux_bound (i + 1) (fun y hy => h y (by simp [hy])) b hb

lemma uuid4bytes_bound {r : List Nat} (h : ∀ b ∈ r, b < 256) :
    ∀ b ∈ uuid4bytes r, b < 256 :=
  uuidMaskAux_bound 0 h

lemma flatten_byteHex_length : ∀ l : List Nat, ((l.map byteHex).flatten).length = 2 * l.length
  | [] => rfl
  | b :: rest => by
    simp only [List.map_cons, List.flatten_cons, List.length_append, byteHex,
      List.length_cons, List.length_nil, flatten_byteHex_length rest]
    omega

lemma uuid4hex_length {r : List Nat} (h : r.length = 16) : (uuid4hex r).length = 32 := by
  have hm : (uuid4bytes r).length = 16 := by
    rw [uuid4bytes, uuidMaskAux_length, h]
  calc (uuid4hex r).length
      = (((uuid4bytes r).map byteHex).flatten).length := rfl
    _ = 2 * (uuid4bytes r).length := flatten_byteHex_length _
    _ = 32 := by rw [hm]

lemma hexDigit_mem : ∀ n, n < 16 → hexDigit n ∈ "0123456789abcdef".toList := by decide

lemma uuid4hex_chars {r : List Nat} (hb : ∀ b ∈ r, b < 256) :
    ∀ c ∈ (uuid4hex r).toList, c ∈ "0123456789abcdef".toList := by
  intro c hc
  have hc' : c ∈ ((uuid4bytes r).map byteHex).flatten := hc
  rcases List.mem_flatten.mp hc' with ⟨l, hl, hcl⟩
  rcases List.mem_map.mp hl with ⟨b, hbmem, rfl⟩
  have h256 : b < 256 := uuid4bytes_bound hb b hbmem
  simp only [byteHex, List.mem_cons, List.not_mem_nil, or_false] at hcl
  rcases hcl with rfl | rfl
  · exact hexDigit_mem _ (by omega)
  · exact hexDigit_mem _ (by omega)

lemma hexDigit_inj : ∀ m < 16, ∀ n < 16, hexDigit m = hexDigit n → m = n := by decide

lemma byteHex_inj {b1 b2 : Nat} (h1 : b1 < 256) (h2 : b2 < 256)
    (h : byteHex b1 = byteHex b2) : b1 = b2 := by
  simp only [byteHex, List.cons.injEq, and_true] at h
  have e1 : b1 / 16 = b2 / 16 := hexDigit_inj (b1 / 16) (by omega) (b2 / 16) (by omega) h.1
  have e2 : b1 % 16 = b2 % 16 := hexDigit_inj (b1 % 16) (by omega) (b2 % 16) (by omega) h.2
  omega

lemma flatten_byteHex_inj : ∀ {l1 l2 : List Nat}, (∀ b ∈ l1, b < 256) →
    (∀ b ∈ l2, b < 256) → (l1.map byteHex).flatten = (l2.map byteHex).flatten → l1 = l2
  | [], [], _, _, _ => rfl
  | [], b :: t, _, _, h => by simp [byteHex] at h
  | b :: t, [], _, _, h => by simp [byteHex] at h
  | b1 :: t1, b2 :: t2, hb1, hb2, h => by
    simp only [List.map_cons, List.flatten_cons, byteHex, List.cons_append,
      List.nil_append, List.cons.injEq] at h
    have e1 : b1 = b2 := by
      have d1 : b1 / 16 = b2 / 16 :=
        hexDigit_inj (b1 / 16) (by have := hb1 b1 (by simp); omega)
          (b2 / 16) (by have := hb2 b2 (by simp); omega) h.1
      have d2 : b1 % 16 = b2 % 16 :=
        hexDigit_inj (b1 % 16) (by omega) (b2 % 16) (by omega) h.2.1
      have := hb1 b1 (by simp)
      have := hb2 b2 (by simp)
      omega
    have e2 : t1 = t2 :=
      flatten_byteHex_inj (fun y hy => hb1 y (by simp [hy]))
        (fun y hy => hb2 y (by simp [hy])) h.2.2
    rw [e1, e2]

lemma uuid4hex_inj {r1 r2 : List Nat} (h1 : ∀ b ∈ r1, b < 256)
    (h2 : ∀ b ∈ r2, b < 256) (heq : uuid4hex r1 = uuid4hex r2) :
    uuid4bytes r1 = uuid4bytes r2 := by
  have hl : ((uuid4bytes r1).map byteHex).flatten = ((uuid4bytes r2).map byteHex).flatten :=
    congrArg String.data heq
  exact flatten_byteHex_inj (uuid4bytes_bound h1) (uuid4bytes_bound h2) hl

/-! ## Claim C6 -/

/-- C6 is refuted: on a write failing after one byte, an error is returned
(no artifact) yet a partial one-byte file sits at the referencable
`/uploads/<id>.png` path, because the bytes are written directly to the
final path. -/
theorem C6_counterexample :
    (save (List.replicate 16 0) [1, 2, 3] (some 1)).1 = none ∧
    (save (List.replicate 16 0) [1, 2, 3] (some 1)).2 =
      some ("/uploads/00000000000040008000000000000000.png", [1]) ∧
    ([1] : List Nat) ≠ [1, 2, 3] := by
  decide

/-- C6 (amended): a successful write stores the full buffer at the
referencable path and returns the artifact; a write failing after k bytes
returns an error and no artifact, but leaves the k-byte partial file at the
very same referencable `/uploads/<id>.png` path (the write is not atomic). -/
theorem C6_save_write_behavior (rand bytes : List Nat) :
    save rand bytes none =
      (some ⟨uuid4hex rand, "/uploads/" ++ (uuid4hex rand ++ ".png")⟩,
        some ("/uploads/" ++ (uuid4hex rand ++ ".png"), bytes)) ∧
    ∀ k, (save rand bytes (some k)).1 = none ∧
      (save rand bytes (some k)).2 =
        some ("/uploads/" ++ (uuid4hex rand ++ ".png"), bytes.take k) := by
  exact ⟨rfl, fun k => ⟨rfl, rfl⟩⟩

/-! ## Claim C7 -/

/-- C7: every persisted artifact is stored under `<hex id>.png` regardless
of content, the response carries exactly the `/uploads/<hex id>.png`
reference, and the identifier is 32 lowercase hex digits (128 bits). -/
theorem C7_png_fileref (img : List Char) (cid : Option String) (bot sOk : Bool)
    (rand bytes : List Nat) (hr : rand.length = 16) (hb : ∀ b ∈ rand, b < 256)
    (hdec : decodeImage img = some bytes) :
    (upload (some ⟨some img, cid⟩) bot rand none sOk).fileWritten =
      some ("/uploads/" ++ (uuid4hex rand ++ ".png"), bytes) ∧
    respFile (upload (some ⟨some img, cid⟩) bot rand none sOk).body =
      some ("/uploads/" ++ (uuid4hex rand ++ ".png")) ∧
    (uuid4hex rand).length = 32 ∧
    ∀ c ∈ (uuid4hex rand).toList, c ∈ "0123456789abcdef".toList := by
  refine ⟨?_, ?_, uuid4hex_length hr, uuid4hex_chars hb⟩ <;>
  · cases hbc : bot && pyTruthyStr cid <;> cases sOk <;>
      simp [upload, hdec, save, hbc, respFile]

/-- Witness for C7 at a concrete upload. -/
theorem C7_png_fileref_witness :
    (upload (some ⟨some "aGVsbG8=".toList, none⟩) false (List.range 16) none
        true).fileWritten =
      some ("/uploads/" ++ (uuid4hex (List.range 16) ++ ".png"),
        [104, 101, 108, 108, 111]) ∧
    respFile (upload (some ⟨some "aGVsbG8=".toList, none⟩) false (List.range 16) none
        true).body =
      some ("/uploads/" ++ (uuid4hex (List.range 16) ++ ".png")) ∧
    (uuid4hex (List.range 16)).length = 32 ∧
    ∀ c ∈ (uuid4hex (List.range 16)).toList, c ∈ "0123456789abcdef".toList :=
  C7_png_fileref "aGVsbG8=".toList none false true (List.range 16)
    [104, 101, 108, 108, 111] (by decide) (by decide) (by decide)

/-! ## Claim C8 -/

/-- C8 is refuted as an unconditional statement: the identifier is a pure
function of the 16 random bytes drawn for the call, so two successful saves
whose random draws coincide return the very same identifier and path (the
code nowhere enforces distinctness; collisions are merely improbable). -/
theorem C8_counterexample :
    (save (List.replicate 16 0) [1] none).1 =
      some ⟨"00000000000040008000000000000000",
        "/uploads/00000000000040008000000000000000.png"⟩ ∧
    (save (List.replicate 16 0) [2] none).1 =
      some ⟨"00000000000040008000000000000000",
        "/uploads/00000000000040008000000000000000.png"⟩ := by
  decide

/-- C8 (amended): two successful saves return distinct identifiers — and
hence distinct `/uploads/<id>.png` paths, so the second never overwrites the
first — whenever their 16-byte random draws differ after the uuid4
version/variant masking; distinctness is exactly as strong as the
randomness. -/
theorem C8_distinct_identifiers (r1 r2 bytes1 bytes2 : List Nat)
    (h1 : ∀ b ∈ r1, b < 256) (h2 : ∀ b ∈ r2, b < 256)
    (hne : uuid4bytes r1 ≠ uuid4bytes r2) :
    uuid4hex r1 ≠ uuid4hex r2 ∧
    (save r1 bytes1 none).1 ≠ (save r2 bytes2 none).1 ∧
    ("/uploads/" ++ (uuid4hex r1 ++ ".png")) ≠
      ("/uploads/" ++ (uuid4hex r2 ++ ".png")) := by
  have hhex : uuid4hex r1 ≠ uuid4hex r2 := fun h => hne (uuid4hex_inj h1 h2 h)
  refine ⟨hhex, ?_, ?_⟩
  · simp only [save]
    intro h
    rw [Option.some.injEq, Artifact.mk.injEq] at h
    exact hhex h.1
  · intro h
    apply hhex
    have hd := congrArg String.data h
    have hd1 : (uuid4hex r1).data ++ ".png".data = (uuid4hex r2).data ++ ".png".data :=
      List.append_cancel_left hd
    exact String.ext (List.append_cancel_right hd1)

/-- Witness for the amended C8 at two concrete differing random draws. -/
theorem C8_distinct_identifiers_witness :
    uuid4hex (List.replicate 16 0) ≠ uuid4hex (List.range 16) ∧
    (save (List.replicate 16 0) [1] none).1 ≠ (save (List.range 16) [1] none).1 ∧
    ("/uploads/" ++ (uuid4hex (List.replicate 16 0) ++ ".png")) ≠
      ("/uploads/" ++ (uuid4hex (List.range 16) ++ ".png")) :=
  C8_distinct_identifiers (List.replicate 16 0) (List.range 16) [1] [1]
    (by decide) (by decide) (by decide)

/-! ## Claim C9 -/

/-- C9: an image string that is empty after header stripping (such as a bare
data-URL header) is accepted: it decodes to zero bytes, an empty `.png`
artifact is stored, and without a chat id the response is saved with
status 201. -/
theorem C9_empty_image_saved (img : List Char) (bot : Bool) (rand : List Nat)
    (sOk : Bool) (h : stripDataUrlHeader img = []) :
    upload (some ⟨some img, none⟩) bot rand none sOk =
      ⟨201, RespBody.statusSaved ("/uploads/" ++ (uuid4hex rand ++ ".png")),
        some ("/uploads/" ++ (uuid4hex rand ++ ".png"), [])⟩ := by
  have hdec : decodeImage img = some [] := by
    simp [decodeImage, h, b64decode, a2b_aux]
  simp [upload, hdec, save, pyTruthyStr]

/-- Witness for C9 at the bare data-URL header. -/
theorem C9_empty_image_saved_witness :
    upload (some ⟨some "data:image/png;base64,".toList, none⟩) false
        (List.replicate 16 0) none true =
      ⟨201, RespBody.statusSaved
          ("/uploads/" ++ (uuid4hex (List.replicate 16 0) ++ ".png")),
        some ("/uploads/" ++ (uuid4hex (List.replicate 16 0) ++ ".png"), [])⟩ :=
  C9_empty_image_saved "data:image/png;base64,".toList false (List.replicate 16 0)
    true (by decide)

/-! ## Claim C10 -/

/-- C10 is refuted: with APP_URL set to the non-empty string "/" (and
WEBHOOK_URL unset) the handler still produces the not-configured text reply,
because stripping trailing slashes empties the selected value. -/
theorem C10_counterexample :
    handle_start 1 (some "/") none = [OutAction.sendText 1 startNotConfiguredText] ∧
    (some "/" : Option String) ≠ none ∧ ("/" : String) ≠ "" := by
  decide

/-- C10 (amended): the base URL is APP_URL when set and non-empty, else
WEBHOOK_URL when set and non-empty, with trailing slashes stripped
afterwards; the not-configured text reply is produced exactly when that
stripped result is empty — both variables unset or empty, or the selected
value consisting solely of slashes. -/
theorem C10_base_resolution (chatId : Int) (appUrl webhookUrl : Option String) :
    resolvedBase appUrl webhookUrl = specStartBase appUrl webhookUrl ∧
    (handle_start chatId appUrl webhookUrl =
        [OutAction.sendText chatId startNotConfiguredText] ↔
      specStartBase appUrl webhookUrl = "") := by
  have hbase : resolvedBase appUrl webhookUrl = specStartBase appUrl webhookUrl := by
    rcases appUrl with _ | a <;> rcases webhookUrl with _ | w <;>
      simp only [resolvedBase, specStartBase, pyOrStr, Option.getD] <;>
      split_ifs <;> simp_all [rstripSlash]
  refine ⟨hbase, ?_⟩
  by_cases hsb : specStartBase appUrl webhookUrl = ""
  · simp [handle_start, hbase, hsb]
  · simp [handle_start, hbase, hsb]

/-- Witness for the amended C10: unset variables resolve to the empty base
and yield the not-configured reply. -/
theorem C10_base_resolution_witness :
    handle_start 1 none none = [OutAction.sendText 1 startNotConfiguredText] :=
  (C10_base_resolution 1 none none).2.mpr (by decide)
